import Mathlib

/-!
# taros_teleop: manual / autonomous command arbitration

A shallow embedding of `src/taros_teleop.cpp` and theorems about it.

Modelling conventions

* The program keeps all of its state in global variables.  The globals that the
  live code reads or writes are gathered in the record `State`; every handler is a
  function on `State`.  Globals that no live statement reads (`wheelResetAxisA`,
  `wheelResetAxisB`, `speedCoefAxis`, `obstacleInfluence`, `currentlyFollowing`,
  `personFollowerButton`, `actuatorButton`) are left out of `State`, and
  `controlRate` only sets the period of the loop.  The statements of `joyCallback`
  that would read them lie inside the comment of lines 144-175 and are not part of
  the program; `wheelResetAxisA` and `wheelResetAxisB` appear as constants, to
  describe joystick samples.
* `wheelSteer` is declared `double wheelSteer = 0;` and no statement of the program
  (not even a parameter read in `main`) assigns it, so it is the constant `0`.
* `double` and `float32` values are modelled by exact rationals: rounding, infinities
  and NaN are outside the model.  `fmin`/`fmax` are `min`/`max`.
* `ros::Time` and `ros::Duration` are integer counts of nanoseconds.  The range
  check that `ros::Duration` performs on a difference of two times is outside the
  model.  `ros::Time::now()` is an explicit argument `now`.
* `joy->buttons[i]` and `joy->axes[i]` index a `std::vector` with an `int`; a read
  outside the vector is undefined behaviour and is modelled by `none`.
* `publish` calls are recorded as outputs of the step; logging (`printf`,
  `ROS_INFO`, `ROS_WARN`) and the empty `publishFollower` have no effect on the state.
-/

namespace TarosTeleop

/-! ## Data model -/

/-- Message type `geometry_msgs::Vector3`. -/
structure Vector3 where
  x : ℚ
  y : ℚ
  z : ℚ
deriving DecidableEq

/-- Message type `geometry_msgs::Twist`. -/
structure Twist where
  linear : Vector3
  angular : Vector3
deriving DecidableEq

/-- Message type `sensor_msgs::Joy` (header omitted): `int32[] buttons`, `float32[] axes`. -/
structure Joy where
  buttons : List Int
  axes : List ℚ
deriving DecidableEq

/-- The global variables of `taros_teleop.cpp` that the live code uses. -/
structure State where
  manualOverrideButton : Int
  steeringResetButton : Int
  linearResetButton : Int
  linearAxis : Int
  angularAxis : Int
  linearGain : ℚ
  steeringGain : ℚ
  maxSteering : ℚ
  maxLinear : ℚ
  emergencyBreak : Bool
  speedCoef : ℚ
  twist : Twist
  teleoperated : Bool
  forwardSpeed : ℚ
  forwardAcceleration : ℚ
  steeringSpeed : ℚ
  steeringAngle : ℚ
  actuatorAllowLifting : Bool
  actuatorLifting : Bool
  actuatorMovementStart : Int
  actuatorPublishDuration : Int
  maxDeadTime : Int
  lastHealthReport : Int
deriving DecidableEq

/-- Global `double wheelSteer = 0;`, never assigned. -/
def wheelSteer : ℚ := 0

/-- Number of nanoseconds in the `ros::Duration` built from a whole number of tenths of a second. -/
def tenthsOfSecond (n : Int) : Int := n * 100000000

/-- The all-zero `geometry_msgs::Twist` (the value of a default-constructed message). -/
def zeroTwist : Twist := ⟨⟨0, 0, 0⟩, ⟨0, 0, 0⟩⟩

/-- The globals when the loop of `main` is entered with no parameter set on the
parameter server: the initialisers of the declarations, overwritten by the defaults
of the `nh.param` calls (`linear_gain` 1.0, `max_linear` 0.1). -/
def initialState : State where
  manualOverrideButton := 0
  steeringResetButton := 9
  linearResetButton := 10
  linearAxis := 1
  angularAxis := 0
  linearGain := 1.0
  steeringGain := 1.0
  maxSteering := 1.57
  maxLinear := 0.1
  emergencyBreak := false
  speedCoef := 1
  twist := zeroTwist
  teleoperated := false
  forwardSpeed := 0
  forwardAcceleration := 0
  steeringSpeed := 0
  steeringAngle := 0
  actuatorAllowLifting := true
  actuatorLifting := true
  actuatorMovementStart := 0
  actuatorPublishDuration := tenthsOfSecond 100
  maxDeadTime := tenthsOfSecond 5
  lastHealthReport := 0

/-! ## Reading a joystick sample -/

/-- Read of `joy->buttons[i]` for an `int` index `i`. -/
def readButton (joy : Joy) (i : Int) : Option Int :=
  if 0 ≤ i then joy.buttons[i.toNat]? else none

/-- Read of `joy->axes[i]` for an `int` index `i`. -/
def readAxis (joy : Joy) (i : Int) : Option ℚ :=
  if 0 ≤ i then joy.axes[i.toNat]? else none

/-- Integral promotion of a `bool`. -/
def boolToInt (b : Bool) : Int := if b then 1 else 0

/-! ## cmdCallback (lines 80-95) -/

/-- Lines 85-87: copy the three used components of the command into `twist`. -/
def copyCmd (cmd : Twist) (t : Twist) : Twist :=
  { linear := { t.linear with x := cmd.linear.x, z := cmd.linear.z },
    angular := { t.angular with z := cmd.angular.z } }

/-- Lines 90-92: zero the three used components of `twist`. -/
def zeroCmd (t : Twist) : Twist :=
  { linear := { t.linear with x := 0, z := 0 },
    angular := { t.angular with z := 0 } }

/-- Handler `cmdCallback`, run at clock reading `now`. -/
def cmdCallback (now : Int) (cmd : Twist) (s : State) : State :=
  if s.teleoperated = false then
    if now - s.lastHealthReport < s.maxDeadTime then
      { s with twist := copyCmd cmd s.twist }
    else
      { s with twist := zeroCmd s.twist }
  else s

/-! ## joyCallback (lines 98-176) -/

/-- Lines 102-106: the body of the mode-switch branch. -/
def clearVelocities (s : State) : State :=
  { s with
    forwardAcceleration := 0
    steeringSpeed := 0
    forwardSpeed := 0
    twist := { s.twist with linear := { s.twist.linear with x := 0 } }
    steeringAngle := wheelSteer }

/-- Lines 119-126 on the value of `forwardAcceleration`. -/
def debias (a : ℚ) : ℚ :=
  let a1 := if a > 0 then (if a - 0.4 < 0 then 0 else a - 0.4) else a
  if a1 < 0 then (if a1 + 0.4 > 0 then 0 else a1 + 0.4) else a1

/-- Lines 128-133: the body of the steering-reset branch. -/
def steeringReset (s : State) : State :=
  { s with
    steeringSpeed := 0
    steeringAngle := 0
    twist := { s.twist with angular := { s.twist.angular with z := 0 } } }

/-- Lines 134-139: the body of the linear-reset branch. -/
def linearReset (s : State) : State :=
  { s with
    forwardAcceleration := 0
    forwardSpeed := 0
    twist := { s.twist with linear := { s.twist.linear with x := 0 } } }

/-- Lines 117-139: the body of `if (teleoperated)` in `joyCallback`. -/
def manualShaping (joy : Joy) (s : State) : Option State := do
  let ang ← readAxis joy s.angularAxis
  let s1 := { s with steeringSpeed := s.steeringGain * ang }
  let lin ← readAxis joy s1.linearAxis
  let s2 := { s1 with forwardAcceleration := debias (s1.linearGain * lin) }
  let bs ← readButton joy s2.steeringResetButton
  let s3 := if bs = 1 then steeringReset s2 else s2
  let bl ← readButton joy s3.linearResetButton
  let s4 := if bl = 1 then linearReset s3 else s3
  pure s4

/-- Handler `joyCallback`; `none` when a read leaves the arrays of the sample. -/
def joyCallback (joy : Joy) (s : State) : Option State := do
  let b ← readButton joy s.manualOverrideButton
  let s1 := if boolToInt s.teleoperated ≠ b then clearVelocities s else s
  let s2 := { s1 with teleoperated := decide (b = 1) }
  if s2.teleoperated then manualShaping joy s2 else pure s2

/-! ## One iteration of the loop of `main` (lines 202-240) -/

/-- What one iteration publishes, and the globals after it. -/
structure TickOutput where
  state : State
  velocity : Twist
  gripper : List Bool

/-- Lines 203-210: the integration step of the manual branch. -/
def manualIntegrate (s : State) : State :=
  let forwardSpeed := min (max s.forwardAcceleration (-s.maxLinear)) s.maxLinear
  let steeringAngle := min (max s.steeringSpeed (-s.maxSteering)) s.maxSteering
  { s with
    forwardSpeed := forwardSpeed
    steeringAngle := steeringAngle
    twist := { linear := { s.twist.linear with x := forwardSpeed, z := 0 },
               angular := { s.twist.angular with z := -steeringAngle } } }

/-- Lines 215-233: the messages given to `gripper_pub.publish` in one iteration of
the manual branch. -/
def actuatorCommands (now : Int) (s : State) : List Bool :=
  if now - s.actuatorMovementStart < s.actuatorPublishDuration then
    if s.actuatorLifting && s.actuatorAllowLifting then [true]
    else if !s.actuatorLifting then [false]
    else []
  else []

/-- Lines 235-238: the emergency override. -/
def emergencyOverride (s : State) : State :=
  if s.emergencyBreak then
    { s with twist := { s.twist with linear := { s.twist.linear with x := 0, z := 5 } } }
  else s

/-- Line 239: the final scaling of `twist.linear.x`. -/
def scaleLinear (s : State) : State :=
  { s with twist := { s.twist with
      linear := { s.twist.linear with x := s.twist.linear.x * s.speedCoef } } }

/-- One iteration of the `while (ros::ok())` loop up to `vel_pub_.publish(twist)`,
at clock reading `now`. -/
def tick (now : Int) (s : State) : TickOutput :=
  let s1 := if s.teleoperated then manualIntegrate s else s
  let grip := if s.teleoperated then actuatorCommands now s1 else []
  let s2 := scaleLinear (emergencyOverride s1)
  { state := s2, velocity := s2.twist, gripper := grip }


/-! ## Definitions used to state the properties -/

/-- Dead-zone debias as the specification words it: subtract 0.4 from a positive
input and clamp at 0 from below, add 0.4 to a negative input and clamp at 0 from
above, and map 0 to 0. -/
def debiasSpec (x : ℚ) : ℚ :=
  if x > 0 then max 0 (x - 0.4) else if x < 0 then min 0 (x + 0.4) else 0

/-- Clamping to `[lo, hi]` as the specification uses it, composed the usual way:
raise to `lo`, then lower to `hi`. -/
def clampSpec (x lo hi : ℚ) : ℚ := min (max x lo) hi

/-- An autonomous command above the default limits: linear.x 5, angular.z 7. -/
def fastCmd : Twist := ⟨⟨5, 0, 0⟩, ⟨0, 0, 7⟩⟩

/-- The initial state put in Manual mode, with stored inputs beyond the limits. -/
def manualState : State :=
  { initialState with teleoperated := true, forwardAcceleration := 3, steeringSpeed := -4 }

/-- The initial state with the compile-time value 0.5 of `linearGain`. -/
def halfGainState : State := { initialState with linearGain := 0.5 }

/-- A joystick sample with eleven buttons, of which only the override button
(index 0) may be nonzero, and two axes: angular (index 0) and linear (index 1). -/
def joyOf (override : Int) (angular linear : ℚ) : Joy :=
  { buttons := [override, 0, 0, 0, 0, 0, 0, 0, 0, 0, 0], axes := [angular, linear] }

/-- Manual mode with the emergency brake set, a stored acceleration and a scaling of 2. -/
def brakedState : State :=
  { manualState with emergencyBreak := true, speedCoef := 2 }

/-- Manual mode with the actuator marked as lifting while lifting is not allowed. -/
def liftBlockedState : State :=
  { manualState with actuatorAllowLifting := false }

/-! ## Samples, publications of the handlers, and runs of the node -/

/-- Global `int wheelResetAxisA = 2;`, never assigned and read by no live statement. -/
def wheelResetAxisA : Int := 2

/-- Global `int wheelResetAxisB = 5;`, never assigned and read by no live statement. -/
def wheelResetAxisB : Int := 5

/-- The globals after `joyCallback`, and the messages it gives to `reset_pub.publish`. -/
structure JoyOutput where
  state : State
  wheelReset : List Bool

/-- Handler `joyCallback` together with its publications.  The live statements of the
handler (lines 101-141) contain no `publish` call: the only one, `reset_pub.publish`
of line 168, lies inside the comment that spans lines 144-175. -/
def joyCallbackOutput (joy : Joy) (s : State) : Option JoyOutput :=
  (joyCallback joy s).map fun s' => { state := s', wheelReset := [] }

/-- What the node reacts to: a message on `remote`, a message on `cmd` (the two
subscriptions of lines 197-198, dispatched by `ros::spinOnce`), and one iteration of
the loop of `main`.  Handlers that read the clock carry the reading. -/
inductive Event where
  | onJoy (sample : Joy)
  | onCmd (now : Int) (command : Twist)
  | onTick (now : Int)

/-- The globals after one event; `none` when `joyCallback` reads outside a sample. -/
def step (e : Event) (s : State) : Option State :=
  match e with
  | Event.onJoy sample => joyCallback sample s
  | Event.onCmd now command => some (cmdCallback now command s)
  | Event.onTick now => some (tick now s).state

/-- The globals after a sequence of events, oldest first. -/
def run : List Event → State → Option State
  | [], s => some s
  | e :: es, s => (step e s).bind (run es)

/-- The globals after consecutive iterations of the loop of `main` at the given clock
readings, with no callback in between. -/
def ticks : List Int → State → State
  | [], s => s
  | now :: rest, s => ticks rest (tick now s).state

/-- The globals that no live statement of the program assigns after start-up and
that the watchdog, the emergency override, the scaling and the actuator window read. -/
def frozenFields (s : State) : Int × Int × Bool × ℚ × Bool × Bool × Int × Int :=
  (s.lastHealthReport, s.maxDeadTime, s.emergencyBreak, s.speedCoef,
   s.actuatorLifting, s.actuatorAllowLifting, s.actuatorMovementStart,
   s.actuatorPublishDuration)

/-- The index and gain globals read by `joyCallback`, with the two clamp limits. -/
def joyConfig (s : State) : Int × Int × Int × Int × Int × ℚ × ℚ × ℚ × ℚ :=
  (s.manualOverrideButton, s.steeringResetButton, s.linearResetButton, s.linearAxis,
   s.angularAxis, s.linearGain, s.steeringGain, s.maxSteering, s.maxLinear)

/-- Events that leave the node in Autonomous mode and carry no autonomous command:
loop iterations, and joystick samples whose override button (at index `override`)
is not 1. -/
def quietEvent (override : Int) : Event → Prop
  | Event.onJoy sample => ∃ b, readButton sample override = some b ∧ b ≠ 1
  | Event.onCmd _ _ => False
  | Event.onTick _ => True

/-- A joystick sample with eleven buttons, all released, and six axes of which the
two wheel-reset axes (indices 2 and 5) hold the given values. -/
def joyWheelReset (axisA axisB : ℚ) : Joy :=
  { buttons := [0, 0, 0, 0, 0, 0, 0, 0, 0, 0, 0], axes := [0, 0, axisA, 0, 0, axisB] }

/-- A joystick sample with the override button and the steering-reset button (index 9)
pressed. -/
def joySteeringReset : Joy :=
  { buttons := [1, 0, 0, 0, 0, 0, 0, 0, 0, 1, 0], axes := [0, 0] }

/-- The initial state with a negative steering limit. -/
def negSteeringState : State := { initialState with maxSteering := -1 }

/-- An Autonomous state holding a pending autonomous command: the initial state after
`fastCmd` was received at clock reading 0. -/
def pendingState : State := cmdCallback 0 fastCmd initialState

/-- The state the default configuration reaches from the initial state on a sample with
the override button pressed, angular axis 1000 and linear axis -1000. -/
def bigStickState : State :=
  { initialState with teleoperated := true, steeringSpeed := 1000, forwardAcceleration := -999.6 }

/-- A run of the node: the operator takes over, steers, releases the override, and an
autonomous command arrives 0.6 s after start. -/
def sampleRun : List Event :=
  [Event.onJoy (joyOf 1 1 1), Event.onTick 1, Event.onJoy (joyOf 0 0 0),
   Event.onCmd (tenthsOfSecond 6) fastCmd, Event.onTick (tenthsOfSecond 7)]

/-! ## Auxiliary facts about the embedding -/

theorem clamp_abs_le (x m : ℚ) (hm : 0 ≤ m) : |min (max x (-m)) m| ≤ m := by
  rw [abs_le]
  constructor
  · exact le_min (le_max_right _ _) (by linarith)
  · exact min_le_right _ _

/-- On a nonempty interval `clampSpec` is the piecewise clamp. -/
theorem clampSpec_piecewise (x lo hi : ℚ) (h : lo ≤ hi) :
    clampSpec x lo hi = if x < lo then lo else if hi < x then hi else x := by
  unfold clampSpec
  simp only [min_def, max_def]
  split_ifs <;> linarith

/-- The two consecutive `if` blocks of lines 119-126 compute the dead-zone debias. -/
theorem debias_eq_debiasSpec (x : ℚ) : debias x = debiasSpec x := by
  unfold debias debiasSpec
  simp only [min_def, max_def]
  split_ifs <;> norm_num at * <;> linarith

/-- The handler `joyCallback` once the override button has been read. -/
theorem joyCallback_of_button (joy : Joy) (s : State) (b : Int)
    (hb : readButton joy s.manualOverrideButton = some b) :
    joyCallback joy s =
      (if b = 1 then
        manualShaping joy
          { (if boolToInt s.teleoperated ≠ b then clearVelocities s else s) with
            teleoperated := true }
       else
        some { (if boolToInt s.teleoperated ≠ b then clearVelocities s else s) with
               teleoperated := false }) := by
  unfold joyCallback
  simp only [hb, Option.bind_eq_bind, Option.some_bind, bind_pure_comp, ne_eq]
  by_cases h : b = 1 <;> simp [h]

/-- The comparison of line 101 succeeds whenever line 113 changes the mode. -/
theorem mode_change_detected (s : State) (b : Int) (hne : decide (b = 1) ≠ s.teleoperated) :
    boolToInt s.teleoperated ≠ b := by
  intro h
  apply hne
  rw [← h]
  cases s.teleoperated <;> simp [boolToInt]

/-- The manual shaping block when its four reads are inside the sample. -/
theorem manualShaping_of_reads (joy : Joy) (s : State) (ang lin : ℚ) (bs bl : Int)
    (ha : readAxis joy s.angularAxis = some ang)
    (hl : readAxis joy s.linearAxis = some lin)
    (hbs : readButton joy s.steeringResetButton = some bs)
    (hbl : readButton joy s.linearResetButton = some bl) :
    manualShaping joy s = some
      ((fun s3 : State => if bl = 1 then linearReset s3 else s3)
        ((fun s2 : State => if bs = 1 then steeringReset s2 else s2)
          { s with steeringSpeed := s.steeringGain * ang,
                   forwardAcceleration := debias (s.linearGain * lin) })) := by
  by_cases h1 : bs = 1 <;> by_cases h2 : bl = 1 <;>
    simp [manualShaping, ha, hl, hbs, hbl, h1, h2, steeringReset, linearReset]

/-! ## Inversion and frame lemmas for the handlers -/

/-- A successful run of the manual shaping block made its four reads. -/
theorem manualShaping_inv (joy : Joy) (s s' : State) (h : manualShaping joy s = some s') :
    ∃ (ang lin : ℚ) (bs bl : Int),
      readAxis joy s.angularAxis = some ang ∧ readAxis joy s.linearAxis = some lin ∧
      readButton joy s.steeringResetButton = some bs ∧
      readButton joy s.linearResetButton = some bl ∧
      s' = (fun s3 : State => if bl = 1 then linearReset s3 else s3)
        ((fun s2 : State => if bs = 1 then steeringReset s2 else s2)
          { s with steeringSpeed := s.steeringGain * ang,
                   forwardAcceleration := debias (s.linearGain * lin) }) := by
  cases ha : readAxis joy s.angularAxis with
  | none => simp [manualShaping, ha] at h
  | some ang =>
    cases hl : readAxis joy s.linearAxis with
    | none => simp [manualShaping, ha, hl] at h
    | some lin =>
      cases hbs : readButton joy s.steeringResetButton with
      | none => simp [manualShaping, ha, hl, hbs] at h
      | some bs =>
        cases hbl : readButton joy s.linearResetButton with
        | none =>
          by_cases h1 : bs = 1 <;>
            simp [manualShaping, ha, hl, hbs, hbl, h1, steeringReset] at h
        | some bl =>
          rw [manualShaping_of_reads joy s ang lin bs bl ha hl hbs hbl] at h
          exact ⟨ang, lin, bs, bl, rfl, rfl, rfl, rfl, (Option.some.inj h).symm⟩

/-- A successful run of `joyCallback` read the override button. -/
theorem joyCallback_inv (joy : Joy) (s s' : State) (h : joyCallback joy s = some s') :
    ∃ b : Int, readButton joy s.manualOverrideButton = some b ∧
      (if b = 1 then
        manualShaping joy
          { (if boolToInt s.teleoperated ≠ b then clearVelocities s else s) with
            teleoperated := true }
       else
        some { (if boolToInt s.teleoperated ≠ b then clearVelocities s else s) with
               teleoperated := false }) = some s' := by
  cases hb : readButton joy s.manualOverrideButton with
  | none => simp [joyCallback, hb] at h
  | some b =>
    rw [joyCallback_of_button joy s b hb] at h
    exact ⟨b, rfl, h⟩

theorem manualShaping_frame (joy : Joy) (s s' : State) (h : manualShaping joy s = some s') :
    frozenFields s' = frozenFields s ∧ joyConfig s' = joyConfig s ∧
    s'.teleoperated = s.teleoperated ∧ s'.twist.linear.z = s.twist.linear.z := by
  obtain ⟨ang, lin, bs, bl, -, -, -, -, rfl⟩ := manualShaping_inv joy s s' h
  by_cases h1 : bs = 1 <;> by_cases h2 : bl = 1 <;>
    simp [h1, h2, frozenFields, joyConfig, steeringReset, linearReset]

/-- The handler `joyCallback` assigns none of the frozen globals, none of the
configuration globals, and not `twist.linear.z`. -/
theorem joyCallback_frame (joy : Joy) (s s' : State) (h : joyCallback joy s = some s') :
    frozenFields s' = frozenFields s ∧ joyConfig s' = joyConfig s ∧
    s'.twist.linear.z = s.twist.linear.z := by
  obtain ⟨b, -, h⟩ := joyCallback_inv joy s s' h
  by_cases hb : b = 1
  · rw [if_pos hb] at h
    obtain ⟨h1, h2, -, h4⟩ := manualShaping_frame joy _ s' h
    rw [h1, h2, h4]
    by_cases hm : boolToInt s.teleoperated ≠ b <;>
      simp [hm, frozenFields, joyConfig, clearVelocities]
  · rw [if_neg hb] at h
    cases Option.some.inj h
    by_cases hm : boolToInt s.teleoperated ≠ b <;>
      simp [hm, frozenFields, joyConfig, clearVelocities]

/-- The handler `cmdCallback` assigns only components of `twist`. -/
theorem cmdCallback_frame (now : Int) (cmd : Twist) (s : State) :
    frozenFields (cmdCallback now cmd s) = frozenFields s ∧
    joyConfig (cmdCallback now cmd s) = joyConfig s ∧
    (cmdCallback now cmd s).teleoperated = s.teleoperated := by
  unfold cmdCallback
  split_ifs <;> simp [frozenFields, joyConfig]

/-- One iteration of the loop assigns `twist`, `forwardSpeed` and `steeringAngle` only. -/
theorem tick_frame (now : Int) (s : State) :
    frozenFields (tick now s).state = frozenFields s ∧
    joyConfig (tick now s).state = joyConfig s ∧
    (tick now s).state.teleoperated = s.teleoperated ∧
    (tick now s).state.forwardAcceleration = s.forwardAcceleration ∧
    (tick now s).state.steeringSpeed = s.steeringSpeed := by
  cases ht : s.teleoperated <;> cases hb : s.emergencyBreak <;>
    simp [tick, manualIntegrate, emergencyOverride, scaleLinear, frozenFields, joyConfig,
      ht, hb]

theorem step_frozen (e : Event) (s s' : State) (h : step e s = some s') :
    frozenFields s' = frozenFields s ∧ joyConfig s' = joyConfig s := by
  cases e with
  | onJoy sample =>
    have := joyCallback_frame sample s s' h
    exact ⟨this.1, this.2.1⟩
  | onCmd now command =>
    cases Option.some.inj h
    exact ⟨(cmdCallback_frame now command s).1, (cmdCallback_frame now command s).2.1⟩
  | onTick now =>
    cases Option.some.inj h
    exact ⟨(tick_frame now s).1, (tick_frame now s).2.1⟩

/-- No sequence of events changes a frozen global or a configuration global. -/
theorem run_frozen (evs : List Event) (s s' : State) (h : run evs s = some s') :
    frozenFields s' = frozenFields s ∧ joyConfig s' = joyConfig s := by
  induction evs generalizing s with
  | nil =>
    cases Option.some.inj h
    exact ⟨rfl, rfl⟩
  | cons e es ih =>
    cases hs : step e s with
    | none => simp [run, hs] at h
    | some s1 =>
      have h1 : run es s1 = some s' := by simpa [run, hs] using h
      obtain ⟨a1, a2⟩ := ih s1 h1
      obtain ⟨b1, b2⟩ := step_frozen e s s1 hs
      exact ⟨a1.trans b1, a2.trans b2⟩

/-! ## Repeating a joystick sample -/

/-- Setting the mode flag to the value it has is no change. -/
theorem teleoperated_update_self (s : State) (v : Bool) (h : s.teleoperated = v) :
    { s with teleoperated := v } = s := by
  cases s
  simp only at h
  subst h
  rfl

/-- The manual shaping block applied to its own result changes nothing. -/
theorem manualShaping_fixed (joy : Joy) (s s1 : State) (h : manualShaping joy s = some s1) :
    manualShaping joy s1 = some s1 := by
  have hc := (manualShaping_frame joy s s1 h).2.1
  simp only [joyConfig, Prod.mk.injEq] at hc
  obtain ⟨-, c2, c3, c4, c5, -, -, -, -⟩ := hc
  obtain ⟨ang, lin, bs, bl, ha, hl, hbs, hbl, hs1⟩ := manualShaping_inv joy s s1 h
  rw [← c5] at ha
  rw [← c4] at hl
  rw [← c2] at hbs
  rw [← c3] at hbl
  rw [manualShaping_of_reads joy s1 ang lin bs bl ha hl hbs hbl, hs1]
  by_cases h1 : bs = 1 <;> by_cases h2 : bl = 1 <;>
    simp [h1, h2, steeringReset, linearReset]

/-- Re-applying a sample to the state it produced changes nothing. -/
theorem joyCallback_fixed (joy : Joy) (s s1 : State) (h : joyCallback joy s = some s1) :
    joyCallback joy s1 = some s1 := by
  have hc := (joyCallback_frame joy s s1 h).2.1
  simp only [joyConfig, Prod.mk.injEq] at hc
  obtain ⟨b, hb, h⟩ := joyCallback_inv joy s s1 h
  rw [← hc.1] at hb
  by_cases hb1 : b = 1
  · rw [if_pos hb1] at h
    have ht : s1.teleoperated = true := (manualShaping_frame joy _ s1 h).2.2.1
    have hm : ¬ (boolToInt s1.teleoperated ≠ b) := by simp [ht, hb1, boolToInt]
    rw [joyCallback_of_button joy s1 b hb, if_pos hb1, if_neg hm,
      teleoperated_update_self s1 true ht]
    exact manualShaping_fixed joy _ s1 h
  · rw [if_neg hb1] at h
    have hs1 := (Option.some.inj h).symm
    have hb1' : ¬ (1 = b) := fun e => hb1 e.symm
    rw [joyCallback_of_button joy s1 b hb, if_neg hb1, hs1]
    by_cases hb0 : b = 0
    · cases ht : s.teleoperated <;> simp [boolToInt, ht, hb0, clearVelocities]
    · have hb0' : ¬ (0 = b) := fun e => hb0 e.symm
      cases ht : s.teleoperated <;>
        simp [boolToInt, ht, hb0', hb1', clearVelocities]

theorem clamp_zero (m : ℚ) (hm : 0 ≤ m) : min (max 0 (-m)) m = 0 := by
  rw [max_eq_left (by linarith), min_eq_left hm]

/-- The fields assigned by one loop iteration in Manual mode. -/
theorem tick_manual_fields (now : Int) (s : State) (ht : s.teleoperated = true) :
    (tick now s).state.forwardSpeed = min (max s.forwardAcceleration (-s.maxLinear)) s.maxLinear ∧
    (tick now s).state.steeringAngle = min (max s.steeringSpeed (-s.maxSteering)) s.maxSteering ∧
    (tick now s).state.twist.angular.z
      = -min (max s.steeringSpeed (-s.maxSteering)) s.maxSteering ∧
    (tick now s).state.twist.linear.x
      = (if s.emergencyBreak then 0
         else min (max s.forwardAcceleration (-s.maxLinear)) s.maxLinear) * s.speedCoef := by
  cases hb : s.emergencyBreak <;>
    simp [tick, manualIntegrate, emergencyOverride, scaleLinear, ht, hb]

/-- The fields left alone or scaled by one loop iteration in Autonomous mode. -/
theorem tick_autonomous_fields (now : Int) (s : State) (ht : s.teleoperated = false) :
    (tick now s).state.forwardSpeed = s.forwardSpeed ∧
    (tick now s).state.steeringAngle = s.steeringAngle ∧
    (tick now s).state.twist.angular.z = s.twist.angular.z ∧
    (tick now s).state.twist.linear.x
      = (if s.emergencyBreak then 0 else s.twist.linear.x) * s.speedCoef := by
  cases hb : s.emergencyBreak <;>
    simp [tick, emergencyOverride, scaleLinear, ht, hb]

/-- The reset of lines 102-106 changes nothing in a state whose five fields are 0. -/
theorem clearVelocities_self (t : State) (h1 : t.forwardAcceleration = 0)
    (h2 : t.steeringSpeed = 0) (h3 : t.forwardSpeed = 0) (h4 : t.twist.linear.x = 0)
    (h5 : t.steeringAngle = 0) : clearVelocities t = t := by
  rcases t with ⟨_, _, _, _, _, _, _, _, _, _, _, ⟨⟨_, _, _⟩, _⟩, _, _, _, _, _, _, _, _, _, _, _⟩
  simp only at h1 h2 h3 h4 h5
  subst h1 h2 h3 h4 h5
  rfl

/-- When the manual shaping block leaves a state as it is. -/
theorem manualShaping_self_iff (joy : Joy) (t : State) (ang lin : ℚ) (bs bl : Int)
    (ha : readAxis joy t.angularAxis = some ang)
    (hl : readAxis joy t.linearAxis = some lin)
    (hbs : readButton joy t.steeringResetButton = some bs)
    (hbl : readButton joy t.linearResetButton = some bl) :
    manualShaping joy t = some t ↔
      (t.steeringSpeed = (if bs = 1 then 0 else t.steeringGain * ang) ∧
       t.forwardAcceleration = (if bl = 1 then 0 else debias (t.linearGain * lin)) ∧
       (bs = 1 → t.steeringAngle = 0 ∧ t.twist.angular.z = 0) ∧
       (bl = 1 → t.forwardSpeed = 0 ∧ t.twist.linear.x = 0)) := by
  rw [manualShaping_of_reads joy t ang lin bs bl ha hl hbs hbl]
  rcases t with ⟨_, _, _, _, _, _, _, _, _, _, _, ⟨⟨_, _, _⟩, ⟨_, _, _⟩⟩,
    _, _, _, _, _, _, _, _, _, _, _⟩
  clear ha hl hbs hbl
  by_cases h1 : bs = 1 <;> by_cases h2 : bl = 1 <;>
    simp [h1, h2, steeringReset, linearReset, eq_comm] <;> tauto

/-! ## C1: bound on the published velocity -/

/-- C1 as stated fails: in Autonomous mode the tick publishes the stored command
unclamped.  From the initial state, an autonomous command with linear.x 5 and
angular.z 7 received at clock reading 0 is published by the next tick although
maxLinear is 0.1 and maxSteering is 1.57.  In Manual mode the bound fails when
maxLinear, maxSteering or speedCoef is negative. -/
theorem tick_velocity_bound_fails :
    ¬ (|(tick 1 (cmdCallback 0 fastCmd initialState)).velocity.linear.x|
          ≤ (cmdCallback 0 fastCmd initialState).maxLinear
              * (cmdCallback 0 fastCmd initialState).speedCoef ∧
       |(tick 1 (cmdCallback 0 fastCmd initialState)).velocity.angular.z|
          ≤ (cmdCallback 0 fastCmd initialState).maxSteering) ∧
    ¬ (|(tick 1 { manualState with maxLinear := -1 }).velocity.linear.x|
          ≤ (-1 : ℚ) * manualState.speedCoef) ∧
    ¬ (|(tick 1 { manualState with maxSteering := -1 }).velocity.angular.z| ≤ (-1 : ℚ)) ∧
    ¬ (|(tick 1 { manualState with speedCoef := -1 }).velocity.linear.x|
          ≤ manualState.maxLinear * (-1 : ℚ)) := by
  refine ⟨?_, ?_, ?_, ?_⟩
  · norm_num [tick, cmdCallback, initialState, fastCmd, copyCmd, scaleLinear,
      emergencyOverride, tenthsOfSecond, zeroTwist]
  · norm_num [tick, initialState, manualState, scaleLinear, emergencyOverride,
      manualIntegrate, zeroTwist]
  · norm_num [tick, initialState, manualState, scaleLinear, emergencyOverride,
      manualIntegrate, zeroTwist]
  · norm_num [tick, initialState, manualState, scaleLinear, emergencyOverride,
      manualIntegrate, zeroTwist]
    exact lt_of_lt_of_le (by norm_num) (abs_nonneg _)

/-- C1 amended: in Manual mode with nonnegative maxLinear, maxSteering and speedCoef
the published velocity satisfies |linear.x| <= maxLinear * speedCoef and
|angular.z| <= maxSteering; in Autonomous mode the tick publishes the stored twist
unclamped: angular.z as stored, and linear.x as stored (0 under the emergency
brake) times speedCoef. -/
theorem tick_velocity_bounds (now : Int) (s : State) :
    (s.teleoperated = true → 0 ≤ s.maxLinear → 0 ≤ s.maxSteering → 0 ≤ s.speedCoef →
      |(tick now s).velocity.linear.x| ≤ s.maxLinear * s.speedCoef ∧
      |(tick now s).velocity.angular.z| ≤ s.maxSteering) ∧
    (s.teleoperated = false →
      (tick now s).velocity.linear.x
        = (if s.emergencyBreak then 0 else s.twist.linear.x) * s.speedCoef ∧
      (tick now s).velocity.angular.z = s.twist.angular.z) := by
  constructor
  · intro ht hL hS hC
    cases hb : s.emergencyBreak
    · simp only [tick, ht, hb, manualIntegrate, emergencyOverride, scaleLinear, if_true,
        Bool.false_eq_true, if_false]
      refine ⟨?_, ?_⟩
      · rw [abs_mul, abs_of_nonneg hC]
        exact mul_le_mul_of_nonneg_right (clamp_abs_le _ _ hL) hC
      · rw [abs_neg]
        exact clamp_abs_le _ _ hS
    · simp only [tick, ht, hb, manualIntegrate, emergencyOverride, scaleLinear, if_true]
      refine ⟨?_, ?_⟩
      · simp only [zero_mul, abs_zero]
        exact mul_nonneg hL hC
      · rw [abs_neg]
        exact clamp_abs_le _ _ hS
  · intro ht
    cases hb : s.emergencyBreak <;>
      simp [tick, ht, hb, emergencyOverride, scaleLinear]

/-- Instance of amended C1: Manual mode with stored inputs beyond the limits. -/
theorem tick_velocity_bounds_witness :
    |(tick 1 manualState).velocity.linear.x| ≤ manualState.maxLinear * manualState.speedCoef ∧
    |(tick 1 manualState).velocity.angular.z| ≤ manualState.maxSteering :=
  (tick_velocity_bounds 1 manualState).1 rfl
    (by norm_num [manualState, initialState]) (by norm_num [manualState, initialState])
    (by norm_num [manualState, initialState])

/-! ## C2-C4: the autonomous command handler -/

/-- C2: in Autonomous mode, when now - lastHealthReport >= maxDeadTime as cmdCallback
runs, twist.linear.x, twist.linear.z and twist.angular.z are 0 afterwards, whatever
the command holds. -/
theorem cmdCallback_stale_zero (now : Int) (cmd : Twist) (s : State)
    (hmode : s.teleoperated = false)
    (hstale : now - s.lastHealthReport ≥ s.maxDeadTime) :
    (cmdCallback now cmd s).twist.linear.x = 0 ∧
    (cmdCallback now cmd s).twist.linear.z = 0 ∧
    (cmdCallback now cmd s).twist.angular.z = 0 := by
  have h : ¬ (now - s.lastHealthReport < s.maxDeadTime) := not_lt.mpr hstale
  simp [cmdCallback, hmode, h, zeroCmd]

/-- Instance of C2: exactly maxDeadTime after the last health report. -/
theorem cmdCallback_stale_zero_witness :
    (cmdCallback (tenthsOfSecond 5) fastCmd initialState).twist.linear.x = 0 ∧
    (cmdCallback (tenthsOfSecond 5) fastCmd initialState).twist.linear.z = 0 ∧
    (cmdCallback (tenthsOfSecond 5) fastCmd initialState).twist.angular.z = 0 :=
  cmdCallback_stale_zero (tenthsOfSecond 5) fastCmd initialState rfl (by decide)

/-- C3: in Autonomous mode with the emergency brake clear and a fresh watchdog,
cmdCallback followed by one tick publishes linear.z and angular.z of the command
unchanged and linear.x of the command times speedCoef. -/
theorem cmd_then_tick_passthrough (now now' : Int) (cmd : Twist) (s : State)
    (hmode : s.teleoperated = false)
    (hbrake : s.emergencyBreak = false)
    (hfresh : now - s.lastHealthReport < s.maxDeadTime) :
    (tick now' (cmdCallback now cmd s)).velocity.linear.z = cmd.linear.z ∧
    (tick now' (cmdCallback now cmd s)).velocity.angular.z = cmd.angular.z ∧
    (tick now' (cmdCallback now cmd s)).velocity.linear.x = cmd.linear.x * s.speedCoef := by
  simp [tick, cmdCallback, hmode, hbrake, hfresh, copyCmd, emergencyOverride, scaleLinear]

/-- Instance of C3: a fresh command with speedCoef 3. -/
theorem cmd_then_tick_passthrough_witness :
    (tick 2 (cmdCallback 1 fastCmd { initialState with speedCoef := 3 })).velocity.linear.z = 0 ∧
    (tick 2 (cmdCallback 1 fastCmd { initialState with speedCoef := 3 })).velocity.angular.z = 7 ∧
    (tick 2 (cmdCallback 1 fastCmd { initialState with speedCoef := 3 })).velocity.linear.x
      = 5 * 3 :=
  cmd_then_tick_passthrough 1 2 fastCmd { initialState with speedCoef := 3 } rfl rfl (by decide)

/-- C4: in Manual mode cmdCallback leaves the whole state unchanged, for every
command and every clock reading (fresh or stale watchdog). -/
theorem cmdCallback_manual_noop (now : Int) (cmd : Twist) (s : State)
    (hmode : s.teleoperated = true) :
    cmdCallback now cmd s = s := by
  simp [cmdCallback, hmode]

/-- Instances of C4: a fresh and a stale watchdog. -/
theorem cmdCallback_manual_noop_witness :
    cmdCallback 1 fastCmd manualState = manualState ∧
    cmdCallback (tenthsOfSecond 50) fastCmd manualState = manualState :=
  ⟨cmdCallback_manual_noop 1 fastCmd manualState rfl,
   cmdCallback_manual_noop (tenthsOfSecond 50) fastCmd manualState rfl⟩

/-! ## C5-C7: the joystick handler -/

/-- C5: when the override button of a sample gives a mode different from the current
one, joyCallback first runs the reset of lines 102-106, which zeroes
forwardAcceleration, steeringSpeed, forwardSpeed, steeringAngle and twist.linear.x,
then sets the mode, and only then applies the manual shaping; after a
Manual->Autonomous event the four shaping fields and twist.linear.x are 0, and after
an Autonomous->Manual event forwardSpeed, steeringAngle and twist.linear.x are 0. -/
theorem joyCallback_mode_switch_resets (joy : Joy) (s : State) (b : Int)
    (hb : readButton joy s.manualOverrideButton = some b)
    (hne : decide (b = 1) ≠ s.teleoperated) :
    ((clearVelocities s).forwardAcceleration = 0 ∧ (clearVelocities s).steeringSpeed = 0 ∧
      (clearVelocities s).forwardSpeed = 0 ∧ (clearVelocities s).steeringAngle = 0 ∧
      (clearVelocities s).twist.linear.x = 0) ∧
    joyCallback joy s =
      (if b = 1 then manualShaping joy { clearVelocities s with teleoperated := true }
       else some { clearVelocities s with teleoperated := false }) ∧
    (b ≠ 1 → ∃ s', joyCallback joy s = some s' ∧ s'.teleoperated = false ∧
      s'.forwardAcceleration = 0 ∧ s'.steeringSpeed = 0 ∧ s'.forwardSpeed = 0 ∧
      s'.steeringAngle = 0 ∧ s'.twist.linear.x = 0) ∧
    (b = 1 → ∀ (ang lin : ℚ) (bs bl : Int),
      readAxis joy s.angularAxis = some ang → readAxis joy s.linearAxis = some lin →
      readButton joy s.steeringResetButton = some bs →
      readButton joy s.linearResetButton = some bl →
      ∃ s', joyCallback joy s = some s' ∧ s'.teleoperated = true ∧
        s'.forwardSpeed = 0 ∧ s'.steeringAngle = 0 ∧ s'.twist.linear.x = 0) := by
  have hsw : joyCallback joy s =
      (if b = 1 then manualShaping joy { clearVelocities s with teleoperated := true }
       else some { clearVelocities s with teleoperated := false }) := by
    rw [joyCallback_of_button joy s b hb, if_pos (mode_change_detected s b hne)]
  refine ⟨by simp [clearVelocities, wheelSteer], hsw, ?_, ?_⟩
  · intro h1
    refine ⟨_, by rw [hsw, if_neg h1], ?_⟩
    simp [clearVelocities, wheelSteer]
  · intro h1 ang lin bs bl ha hl hbs hbl
    rw [hsw, if_pos h1,
      manualShaping_of_reads joy { clearVelocities s with teleoperated := true } ang lin bs bl
        ha hl hbs hbl]
    refine ⟨_, rfl, ?_⟩
    by_cases h2 : bs = 1 <;> by_cases h3 : bl = 1 <;>
      simp [h2, h3, clearVelocities, wheelSteer, steeringReset, linearReset]

/-- Instances of C5: a Manual->Autonomous event and an Autonomous->Manual event. -/
theorem joyCallback_mode_switch_resets_witness :
    (∃ s', joyCallback (joyOf 0 1 1) manualState = some s' ∧ s'.teleoperated = false ∧
      s'.forwardAcceleration = 0 ∧ s'.steeringSpeed = 0 ∧ s'.forwardSpeed = 0 ∧
      s'.steeringAngle = 0 ∧ s'.twist.linear.x = 0) ∧
    (∃ s', joyCallback (joyOf 1 1 1) (cmdCallback 0 fastCmd initialState) = some s' ∧
      s'.teleoperated = true ∧
      s'.forwardSpeed = 0 ∧ s'.steeringAngle = 0 ∧ s'.twist.linear.x = 0) :=
  ⟨(joyCallback_mode_switch_resets (joyOf 0 1 1) manualState 0 rfl (by decide)).2.2.1
      (by decide),
   (joyCallback_mode_switch_resets (joyOf 1 1 1) (cmdCallback 0 fastCmd initialState) 1 rfl
      (by decide)).2.2.2 rfl 1 1 0 0 rfl rfl rfl rfl⟩

/-- C6: for a joystick sample with the override button pressed (so that it is
processed in Manual mode) and the linear-reset button not pressed, the resulting
forwardAcceleration is the dead-zone debias of linearGain * axes[linearAxis]; the
reads of the sample are assumed to be inside its arrays. -/
theorem joyCallback_forwardAcceleration (joy : Joy) (s : State) (ang lin : ℚ) (bs bl : Int)
    (hb : readButton joy s.manualOverrideButton = some 1)
    (ha : readAxis joy s.angularAxis = some ang)
    (hl : readAxis joy s.linearAxis = some lin)
    (hbs : readButton joy s.steeringResetButton = some bs)
    (hbl : readButton joy s.linearResetButton = some bl)
    (hnoreset : bl ≠ 1) :
    ∃ s', joyCallback joy s = some s' ∧
      s'.forwardAcceleration = debiasSpec (s.linearGain * lin) := by
  rw [joyCallback_of_button joy s 1 hb, if_pos rfl]
  by_cases hm : boolToInt s.teleoperated ≠ 1
  · rw [if_pos hm, manualShaping_of_reads joy { clearVelocities s with teleoperated := true }
      ang lin bs bl ha hl hbs hbl]
    refine ⟨_, rfl, ?_⟩
    by_cases h2 : bs = 1 <;>
      simp [h2, hnoreset, clearVelocities, steeringReset, debias_eq_debiasSpec]
  · rw [if_neg hm, manualShaping_of_reads joy { s with teleoperated := true }
      ang lin bs bl ha hl hbs hbl]
    refine ⟨_, rfl, ?_⟩
    by_cases h2 : bs = 1 <;>
      simp [h2, hnoreset, steeringReset, debias_eq_debiasSpec]

/-- Instances of C6: with linearGain 0.5, axis value 0.7 gives 0 and axis value 1.0 gives 0.1. -/
theorem joyCallback_forwardAcceleration_witness :
    (∃ s', joyCallback (joyOf 1 0 0.7) halfGainState = some s' ∧ s'.forwardAcceleration = 0) ∧
    (∃ s', joyCallback (joyOf 1 0 1.0) halfGainState = some s' ∧
      s'.forwardAcceleration = 0.1) := by
  have h1 := joyCallback_forwardAcceleration (joyOf 1 0 0.7) halfGainState 0 0.7 0 0
    rfl rfl rfl rfl rfl (by decide)
  have h2 := joyCallback_forwardAcceleration (joyOf 1 0 1.0) halfGainState 0 1.0 0 0
    rfl rfl rfl rfl rfl (by decide)
  have e1 : debiasSpec (halfGainState.linearGain * 0.7) = 0 := by
    norm_num [debiasSpec, halfGainState, initialState]
  have e2 : debiasSpec (halfGainState.linearGain * 1.0) = 0.1 := by
    norm_num [debiasSpec, halfGainState, initialState]
  rw [e1] at h1
  rw [e2] at h2
  exact ⟨h1, h2⟩

/-- C7: for a joystick sample with the override button pressed and neither reset
button pressed, joyCallback followed by one tick with the emergency brake clear
gives steeringAngle = clamp(steeringGain * axes[angularAxis], -maxSteering,
maxSteering) and publishes angular.z = -steeringAngle, linear.x =
clamp(forwardAcceleration, -maxLinear, maxLinear) * speedCoef and linear.z = 0; the
reads of the sample are assumed to be inside its arrays. -/
theorem joy_then_tick_manual (now : Int) (joy : Joy) (s : State) (ang lin : ℚ) (bs bl : Int)
    (hb : readButton joy s.manualOverrideButton = some 1)
    (ha : readAxis joy s.angularAxis = some ang)
    (hl : readAxis joy s.linearAxis = some lin)
    (hbs : readButton joy s.steeringResetButton = some bs)
    (hbl : readButton joy s.linearResetButton = some bl)
    (hsteer : bs ≠ 1) (hlinear : bl ≠ 1)
    (hbrake : s.emergencyBreak = false) :
    ∃ s', joyCallback joy s = some s' ∧
      (tick now s').state.steeringAngle
        = clampSpec (s.steeringGain * ang) (-s.maxSteering) s.maxSteering ∧
      (tick now s').velocity.angular.z = -(tick now s').state.steeringAngle ∧
      (tick now s').velocity.linear.x
        = clampSpec s'.forwardAcceleration (-s.maxLinear) s.maxLinear * s.speedCoef ∧
      (tick now s').velocity.linear.z = 0 := by
  rw [joyCallback_of_button joy s 1 hb, if_pos rfl]
  by_cases hm : boolToInt s.teleoperated ≠ 1
  · rw [if_pos hm, manualShaping_of_reads joy { clearVelocities s with teleoperated := true }
      ang lin bs bl ha hl hbs hbl]
    refine ⟨_, rfl, ?_⟩
    simp [hsteer, hlinear, hbrake, tick, manualIntegrate, emergencyOverride, scaleLinear,
      clearVelocities, clampSpec]
  · rw [if_neg hm, manualShaping_of_reads joy { s with teleoperated := true }
      ang lin bs bl ha hl hbs hbl]
    refine ⟨_, rfl, ?_⟩
    simp [hsteer, hlinear, hbrake, tick, manualIntegrate, emergencyOverride, scaleLinear,
      clampSpec]

/-- Instance of C7: steering axis 1.0 with steeringGain 1.0 and maxSteering 1.57. -/
theorem joy_then_tick_manual_witness :
    ∃ s', joyCallback (joyOf 1 1.0 0) initialState = some s' ∧
      (tick 1 s').state.steeringAngle = 1.0 ∧ (tick 1 s').velocity.angular.z = -1.0 := by
  obtain ⟨s', h, h1, h2, _, _⟩ := joy_then_tick_manual 1 (joyOf 1 1.0 0) initialState 1.0 0 0 0
    rfl rfl rfl rfl rfl (by decide) (by decide) rfl
  have e : clampSpec (initialState.steeringGain * 1.0) (-initialState.maxSteering)
      initialState.maxSteering = 1.0 := by
    norm_num [clampSpec, initialState]
  rw [e] at h1
  exact ⟨s', h, h1, by rw [h2, h1]⟩

/-! ## C8-C9: the actuator window -/

/-- C8 as stated fails: inside the window (clock reading 1, window of 10 s starting
at 0) the tick emits no actuator command in Autonomous mode, nor in Manual mode when
actuatorLifting is set while actuatorAllowLifting is clear. -/
theorem actuator_iff_window_fails :
    ¬ ((tick 1 initialState).gripper ≠ [] ↔
        1 - initialState.actuatorMovementStart < initialState.actuatorPublishDuration) ∧
    ¬ ((tick 1 liftBlockedState).gripper ≠ [] ↔
        1 - liftBlockedState.actuatorMovementStart
          < liftBlockedState.actuatorPublishDuration) := by
  constructor <;> decide

/-- C8 amended: the tick emits an actuator command if and only if the state is in
Manual mode, now - actuatorMovementStart < actuatorPublishDuration, and either
actuatorLifting is clear or actuatorAllowLifting is set; when exactly
actuatorPublishDuration has elapsed, no actuator command is emitted. -/
theorem actuator_emitted_iff (now : Int) (s : State) :
    ((tick now s).gripper ≠ [] ↔
      (s.teleoperated = true ∧
       now - s.actuatorMovementStart < s.actuatorPublishDuration ∧
       (s.actuatorLifting = false ∨ s.actuatorAllowLifting = true))) ∧
    (tick (s.actuatorMovementStart + s.actuatorPublishDuration) s).gripper = [] := by
  constructor
  · cases ht : s.teleoperated <;> cases hl : s.actuatorLifting <;>
      cases ha : s.actuatorAllowLifting <;>
      by_cases hw : now - s.actuatorMovementStart < s.actuatorPublishDuration <;>
      simp [tick, actuatorCommands, manualIntegrate, ht, hl, ha, hw]
  · cases ht : s.teleoperated <;>
      simp [tick, actuatorCommands, manualIntegrate, ht]

/-- C9: the tick emits at most one actuator command, none when
now - actuatorMovementStart >= actuatorPublishDuration, and an emitted command is
the engage command (true) exactly when actuatorLifting && actuatorAllowLifting holds
and the release command (false) exactly when actuatorLifting is false. -/
theorem actuator_command_shape (now : Int) (s : State) :
    (tick now s).gripper.length ≤ 1 ∧
    (now - s.actuatorMovementStart ≥ s.actuatorPublishDuration → (tick now s).gripper = []) ∧
    (∀ c ∈ (tick now s).gripper,
      (c = true ↔ (s.actuatorLifting && s.actuatorAllowLifting) = true) ∧
      (c = false ↔ s.actuatorLifting = false)) := by
  refine ⟨?_, ?_, ?_⟩
  · cases ht : s.teleoperated <;> cases hl : s.actuatorLifting <;>
      cases ha : s.actuatorAllowLifting <;>
      by_cases hw : now - s.actuatorMovementStart < s.actuatorPublishDuration <;>
      simp [tick, actuatorCommands, manualIntegrate, ht, hl, ha, hw]
  · intro h
    have hw : ¬ (now - s.actuatorMovementStart < s.actuatorPublishDuration) := not_lt.mpr h
    cases ht : s.teleoperated <;> simp [tick, actuatorCommands, manualIntegrate, ht, hw]
  · cases ht : s.teleoperated <;> cases hl : s.actuatorLifting <;>
      cases ha : s.actuatorAllowLifting <;>
      by_cases hw : now - s.actuatorMovementStart < s.actuatorPublishDuration <;>
      simp [tick, actuatorCommands, manualIntegrate, ht, hl, ha, hw]

/-! ## C10: the emergency override -/

/-- C10: when the emergency-brake flag is set, the tick publishes linear.x = 0 and
linear.z = 5, in either mode and for every shaping state and speedCoef. -/
theorem tick_emergency_brake (now : Int) (s : State) (hbrake : s.emergencyBreak = true) :
    (tick now s).velocity.linear.x = 0 ∧ (tick now s).velocity.linear.z = 5 := by
  cases ht : s.teleoperated <;>
    simp [tick, manualIntegrate, emergencyOverride, scaleLinear, ht, hbrake]

/-- Instances of C10: a braked state in Manual mode and one in Autonomous mode. -/
theorem tick_emergency_brake_witness :
    ((tick 1 brakedState).velocity.linear.x = 0 ∧ (tick 1 brakedState).velocity.linear.z = 5) ∧
    ((tick 1 { cmdCallback 0 fastCmd initialState with emergencyBreak := true }).velocity.linear.x
        = 0 ∧
      (tick 1 { cmdCallback 0 fastCmd initialState with emergencyBreak := true }).velocity.linear.z
        = 5) :=
  ⟨tick_emergency_brake 1 brakedState rfl,
   tick_emergency_brake 1 { cmdCallback 0 fastCmd initialState with emergencyBreak := true } rfl⟩

/-! ## C11: the emergency override and the angular output -/

/-- C11 as stated fails: with the emergency-brake flag set, the tick still publishes
the steering command.  In Manual mode with steeringSpeed -4 and maxSteering 1.57 the
published angular.z is 1.57; in Autonomous mode with a pending angular.z of 7 it is 7. -/
theorem tick_brake_not_full_stop :
    ¬ ((tick 1 brakedState).velocity.linear.x = 0 ∧
       (tick 1 brakedState).velocity.angular.z = 0) ∧
    ¬ ((tick 1 { pendingState with emergencyBreak := true }).velocity.linear.x = 0 ∧
       (tick 1 { pendingState with emergencyBreak := true }).velocity.angular.z = 0) := by
  constructor <;>
    norm_num [tick, brakedState, manualState, pendingState, cmdCallback, initialState, fastCmd,
      copyCmd, scaleLinear, emergencyOverride, manualIntegrate, tenthsOfSecond, zeroTwist]

/-- C11 amended: with the emergency-brake flag set, the tick publishes linear.x = 0,
and the angular output is not touched by the override: angular.z is
-clamp(steeringSpeed, -maxSteering, maxSteering) in Manual mode and the stored
twist.angular.z in Autonomous mode, the same value as with the flag clear. -/
theorem tick_brake_linear_only (now : Int) (s : State) (hbrake : s.emergencyBreak = true) :
    (tick now s).velocity.linear.x = 0 ∧
    (tick now s).velocity.angular.z
      = (if s.teleoperated then -clampSpec s.steeringSpeed (-s.maxSteering) s.maxSteering
         else s.twist.angular.z) ∧
    (tick now s).velocity.angular.z
      = (tick now { s with emergencyBreak := false }).velocity.angular.z := by
  cases ht : s.teleoperated <;>
    simp [tick, manualIntegrate, emergencyOverride, scaleLinear, clampSpec, ht, hbrake]

/-- Instance of amended C11: the braked Manual state publishes angular.z = 1.57. -/
theorem tick_brake_linear_only_witness :
    (tick 1 brakedState).velocity.linear.x = 0 ∧
    (tick 1 brakedState).velocity.angular.z = 1.57 := by
  obtain ⟨h1, h2, _⟩ := tick_brake_linear_only 1 brakedState rfl
  refine ⟨h1, ?_⟩
  rw [h2]
  norm_num [brakedState, manualState, initialState, clampSpec]

/-! ## C12: the wheel-reset axes -/

/-- C12 as stated fails: a sample with both wheel-reset axes at -1 makes joyCallback
emit no wheel-reset command and does not clear a set emergency-brake flag, and a
sample with only axis A at -1 does not set the flag. -/
theorem wheel_reset_axes_ignored :
    (readAxis (joyWheelReset (-1) (-1)) wheelResetAxisA = some (-1) ∧
     readAxis (joyWheelReset (-1) (-1)) wheelResetAxisB = some (-1) ∧
     ¬ ∃ out, joyCallbackOutput (joyWheelReset (-1) (-1)) brakedState = some out ∧
        out.wheelReset = [true] ∧ out.state.emergencyBreak = false) ∧
    (readAxis (joyWheelReset (-1) 0) wheelResetAxisA = some (-1) ∧
     readAxis (joyWheelReset (-1) 0) wheelResetAxisB = some 0 ∧
     ¬ ∃ out, joyCallbackOutput (joyWheelReset (-1) 0) initialState = some out ∧
        out.state.emergencyBreak = true ∧ out.wheelReset = []) := by
  refine ⟨⟨rfl, rfl, ?_⟩, ⟨rfl, rfl, ?_⟩⟩
  · rintro ⟨out, h, h1, -⟩
    simp only [joyCallbackOutput, Option.map_eq_some'] at h
    obtain ⟨s', -, rfl⟩ := h
    simp at h1
  · rintro ⟨out, h, h1, -⟩
    simp only [joyCallbackOutput, Option.map_eq_some'] at h
    obtain ⟨s', hs, rfl⟩ := h
    have hf := (joyCallback_frame _ _ _ hs).1
    simp only [frozenFields, Prod.mk.injEq] at hf
    rw [hf.2.2.1] at h1
    simp [initialState] at h1

/-- C12 amended: whatever the wheel-reset axes hold (both at -1, or only axis A at
-1), joyCallback emits no wheel-reset command and leaves the emergency-brake flag as
it was. -/
theorem joyCallback_no_wheel_reset (joy : Joy) (s : State) (out : JoyOutput)
    (h : joyCallbackOutput joy s = some out) :
    out.wheelReset = [] ∧ out.state.emergencyBreak = s.emergencyBreak := by
  simp only [joyCallbackOutput, Option.map_eq_some'] at h
  obtain ⟨s', hs, rfl⟩ := h
  have hf := (joyCallback_frame _ _ _ hs).1
  simp only [frozenFields, Prod.mk.injEq] at hf
  exact ⟨rfl, hf.2.2.1⟩

/-- Instances of amended C12: both axes at -1 on a braked state, and only axis A at
-1 on the initial state. -/
theorem joyCallback_no_wheel_reset_witness :
    (∃ out, joyCallbackOutput (joyWheelReset (-1) (-1)) brakedState = some out ∧
      out.wheelReset = [] ∧ out.state.emergencyBreak = true) ∧
    (∃ out, joyCallbackOutput (joyWheelReset (-1) 0) initialState = some out ∧
      out.wheelReset = [] ∧ out.state.emergencyBreak = false) :=
  ⟨⟨_, rfl, joyCallback_no_wheel_reset (joyWheelReset (-1) (-1)) brakedState _ rfl⟩,
   ⟨_, rfl, joyCallback_no_wheel_reset (joyWheelReset (-1) 0) initialState _ rfl⟩⟩

/-- Re-applying a sample after one loop iteration changes nothing, for nonnegative
clamp limits. -/
theorem joyCallback_fixed_after_tick (now : Int) (joy : Joy) (s s1 : State)
    (hL : 0 ≤ s.maxLinear) (hS : 0 ≤ s.maxSteering) (h : joyCallback joy s = some s1) :
    joyCallback joy (tick now s1).state = some (tick now s1).state := by
  have hc1 := (joyCallback_frame joy s s1 h).2.1
  obtain ⟨hf2, hc2, ht2, hfa2, hss2⟩ := tick_frame now s1
  simp only [joyConfig, Prod.mk.injEq] at hc1 hc2
  obtain ⟨b, hb, h⟩ := joyCallback_inv joy s s1 h
  have hb2 : readButton joy (tick now s1).state.manualOverrideButton = some b := by
    rw [hc2.1, hc1.1]
    exact hb
  rw [← hc1.2.2.2.2.2.2.2.2] at hL
  rw [← hc1.2.2.2.2.2.2.2.1] at hS
  by_cases hb1 : b = 1
  · rw [if_pos hb1] at h
    have ht : s1.teleoperated = true := (manualShaping_frame joy _ s1 h).2.2.1
    have hfix := manualShaping_fixed joy _ s1 h
    obtain ⟨ang, lin, bs, bl, ha, hl, hbs, hbl, -⟩ := manualShaping_inv joy s1 s1 hfix
    obtain ⟨e1, e2, e3, e4⟩ := (manualShaping_self_iff joy s1 ang lin bs bl ha hl hbs hbl).mp hfix
    obtain ⟨m1, m2, m3, m4⟩ := tick_manual_fields now s1 ht
    have hm : ¬ (boolToInt (tick now s1).state.teleoperated ≠ b) := by
      simp [ht2, ht, hb1, boolToInt]
    rw [joyCallback_of_button joy _ b hb2, if_pos hb1, if_neg hm,
      teleoperated_update_self _ true (ht2.trans ht)]
    rw [← hc2.2.2.2.2.1] at ha
    rw [← hc2.2.2.2.1] at hl
    rw [← hc2.2.1] at hbs
    rw [← hc2.2.2.1] at hbl
    rw [manualShaping_self_iff joy _ ang lin bs bl ha hl hbs hbl]
    refine ⟨?_, ?_, ?_, ?_⟩
    · rw [hss2, hc2.2.2.2.2.2.2.1]
      exact e1
    · rw [hfa2, hc2.2.2.2.2.2.1]
      exact e2
    · intro hbs1
      have z : s1.steeringSpeed = 0 := by rw [e1, if_pos hbs1]
      rw [m2, m3, z, clamp_zero _ hS]
      exact ⟨rfl, neg_zero⟩
    · intro hbl1
      have z : s1.forwardAcceleration = 0 := by rw [e2, if_pos hbl1]
      rw [m1, m4, z, clamp_zero _ hL]
      refine ⟨rfl, ?_⟩
      split_ifs <;> exact zero_mul _
  · rw [if_neg hb1] at h
    have hs1 := (Option.some.inj h).symm
    have ht : s1.teleoperated = false := by rw [hs1]
    rw [joyCallback_of_button joy _ b hb2, if_neg hb1]
    by_cases hb0 : b = 0
    · have hm : ¬ (boolToInt (tick now s1).state.teleoperated ≠ b) := by
        simp [ht2, ht, hb0, boolToInt]
      rw [if_neg hm, teleoperated_update_self _ false (ht2.trans ht)]
    · have hm : boolToInt (tick now s1).state.teleoperated ≠ b := by
        rw [ht2, ht]
        exact fun e => hb0 e.symm
      have hm0 : boolToInt s.teleoperated ≠ b := by
        cases s.teleoperated
        · exact fun e => hb0 e.symm
        · exact fun e => hb1 e.symm
      rw [if_pos hm0] at hs1
      obtain ⟨a1, a2, -, a4⟩ := tick_autonomous_fields now s1 ht
      have z1 : s1.forwardAcceleration = 0 := by rw [hs1]; rfl
      have z2 : s1.steeringSpeed = 0 := by rw [hs1]; rfl
      have z3 : s1.forwardSpeed = 0 := by rw [hs1]; rfl
      have z4 : s1.twist.linear.x = 0 := by rw [hs1]; rfl
      have z5 : s1.steeringAngle = 0 := by rw [hs1]; rfl
      rw [if_pos hm, clearVelocities_self _ (hfa2.trans z1) (hss2.trans z2) (a1.trans z3)
        (by rw [a4, z4]; split_ifs <;> exact zero_mul _) (a2.trans z5),
        teleoperated_update_self _ false (ht2.trans ht)]

/-! ## C13: repeating a joystick sample -/

/-- C13 as stated fails: with a negative maxSteering, a sample that presses the
override and the steering-reset buttons is not idempotent across a tick.  After the
sample and one tick steeringAngle is -1 and twist.angular.z is 1; the same sample
then resets both to 0. -/
theorem joy_tick_joy_changes_state :
    ¬ ((joyCallback joySteeringReset negSteeringState).bind
          (fun s1 => joyCallback joySteeringReset (tick 1 s1).state)
        = (joyCallback joySteeringReset negSteeringState).map (fun s1 => (tick 1 s1).state)) := by
  intro h
  have h1 : ((joyCallback joySteeringReset negSteeringState).bind
      (fun s1 => joyCallback joySteeringReset (tick 1 s1).state)).map
        (fun t => t.steeringAngle) = some 0 := by
    simp [joyCallback, manualShaping, readButton, readAxis, joySteeringReset, negSteeringState,
      initialState, boolToInt, steeringReset, clearVelocities, tick, manualIntegrate,
      emergencyOverride, scaleLinear, wheelSteer]
  have h2 : ((joyCallback joySteeringReset negSteeringState).map
      (fun s1 => (tick 1 s1).state)).map (fun t => t.steeringAngle) = some (-1) := by
    simp [joyCallback, manualShaping, readButton, readAxis, joySteeringReset, negSteeringState,
      initialState, boolToInt, steeringReset, clearVelocities, tick, manualIntegrate,
      emergencyOverride, scaleLinear, wheelSteer]
  rw [h, h2] at h1
  simp at h1

/-- C13 amended: processing a joystick sample is idempotent for every state and every
sample, joyCallback(j, joyCallback(j, s)) = joyCallback(j, s); and for every state
with maxLinear >= 0 and maxSteering >= 0, re-applying j after an intervening tick
leaves the state the tick produced. -/
theorem joyCallback_idempotent (joy : Joy) (s : State) :
    (joyCallback joy s).bind (joyCallback joy) = joyCallback joy s ∧
    (0 ≤ s.maxLinear → 0 ≤ s.maxSteering → ∀ now : Int,
      (joyCallback joy s).bind (fun s1 => joyCallback joy (tick now s1).state)
        = (joyCallback joy s).map (fun s1 => (tick now s1).state)) := by
  constructor
  · cases h : joyCallback joy s with
    | none => rfl
    | some s1 => exact joyCallback_fixed joy s s1 h
  · intro hL hS now
    cases h : joyCallback joy s with
    | none => rfl
    | some s1 => exact joyCallback_fixed_after_tick now joy s s1 hL hS h

/-- Instance of amended C13: the steering-reset sample on the initial state, where the
handler returns a state, re-applied after a tick. -/
theorem joyCallback_idempotent_witness :
    (joyCallback joySteeringReset initialState).isSome = true ∧
    (joyCallback joySteeringReset initialState).bind
        (fun s1 => joyCallback joySteeringReset (tick 1 s1).state)
      = (joyCallback joySteeringReset initialState).map (fun s1 => (tick 1 s1).state) :=
  ⟨rfl, (joyCallback_idempotent joySteeringReset initialState).2
    (by norm_num [initialState]) (by norm_num [initialState]) 1⟩

/-! ## C14: reads of a joystick sample -/

/-- A button read succeeds exactly when the index is inside the array. -/
theorem readButton_isSome (joy : Joy) (i : Int) :
    (readButton joy i).isSome = true ↔ 0 ≤ i ∧ i < joy.buttons.length := by
  unfold readButton
  by_cases h : 0 ≤ i
  · simp only [h, if_true, true_and]
    rw [Option.isSome_iff_exists]
    simp only [List.getElem?_eq_some_iff]
    constructor
    · rintro ⟨_, hlt, -⟩
      omega
    · intro hlt
      exact ⟨_, by omega, rfl⟩
  · simp [h]

/-- An axis read succeeds exactly when the index is inside the array. -/
theorem readAxis_isSome (joy : Joy) (i : Int) :
    (readAxis joy i).isSome = true ↔ 0 ≤ i ∧ i < joy.axes.length := by
  unfold readAxis
  by_cases h : 0 ≤ i
  · simp only [h, if_true, true_and]
    rw [Option.isSome_iff_exists]
    simp only [List.getElem?_eq_some_iff]
    constructor
    · rintro ⟨_, hlt, -⟩
      omega
    · intro hlt
      exact ⟨_, by omega, rfl⟩
  · simp [h]

/-- C14 as stated fails: joyCallback indexes the arrays of the sample without any
length check.  On a sample with empty arrays the read of
buttons[manualOverrideButton] is out of bounds; on a sample with one pressed button
and two axes (default indices) the read of buttons[steeringResetButton] = buttons[9]
is out of bounds. -/
theorem joyCallback_reads_out_of_bounds :
    joyCallback { buttons := [], axes := [] } initialState = none ∧
    joyCallback { buttons := [1], axes := [0, 0] } initialState = none := by
  constructor <;> rfl

/-- C14 amended: joyCallback completes exactly when the reads it performs are within
the arrays of the sample: manualOverrideButton indexes buttons, and, when that button
is 1, angularAxis and linearAxis index axes and steeringResetButton and
linearResetButton index buttons.  Samples with shorter arrays make it read out of
bounds. -/
theorem joyCallback_completes_iff (joy : Joy) (s : State) :
    (joyCallback joy s).isSome = true ↔
      ∃ b : Int, readButton joy s.manualOverrideButton = some b ∧
        (b = 1 →
          (0 ≤ s.angularAxis ∧ s.angularAxis < joy.axes.length) ∧
          (0 ≤ s.linearAxis ∧ s.linearAxis < joy.axes.length) ∧
          (0 ≤ s.steeringResetButton ∧ s.steeringResetButton < joy.buttons.length) ∧
          (0 ≤ s.linearResetButton ∧ s.linearResetButton < joy.buttons.length)) := by
  simp only [← readButton_isSome, ← readAxis_isSome]
  constructor
  · intro h
    obtain ⟨s1, hs1⟩ := Option.isSome_iff_exists.mp h
    obtain ⟨b, hb, h1⟩ := joyCallback_inv joy s s1 hs1
    refine ⟨b, hb, fun hb1 => ?_⟩
    rw [if_pos hb1] at h1
    obtain ⟨ang, lin, bs, bl, ha, hl, hbs, hbl, -⟩ := manualShaping_inv joy _ s1 h1
    have e1 : readAxis joy s.angularAxis = some ang := by
      rw [← ha]; split_ifs <;> rfl
    have e2 : readAxis joy s.linearAxis = some lin := by
      rw [← hl]; split_ifs <;> rfl
    have e3 : readButton joy s.steeringResetButton = some bs := by
      rw [← hbs]; split_ifs <;> rfl
    have e4 : readButton joy s.linearResetButton = some bl := by
      rw [← hbl]; split_ifs <;> rfl
    simp [e1, e2, e3, e4]
  · rintro ⟨b, hb, h⟩
    rw [joyCallback_of_button joy s b hb]
    by_cases hb1 : b = 1
    · obtain ⟨h1, h2, h3, h4⟩ := h hb1
      obtain ⟨ang, ha⟩ := Option.isSome_iff_exists.mp h1
      obtain ⟨lin, hl⟩ := Option.isSome_iff_exists.mp h2
      obtain ⟨bs, hbs⟩ := Option.isSome_iff_exists.mp h3
      obtain ⟨bl, hbl⟩ := Option.isSome_iff_exists.mp h4
      rw [if_pos hb1, manualShaping_of_reads joy _ ang lin bs bl
        (by rw [← ha]; split_ifs <;> rfl) (by rw [← hl]; split_ifs <;> rfl)
        (by rw [← hbs]; split_ifs <;> rfl) (by rw [← hbl]; split_ifs <;> rfl)]
      rfl
    · rw [if_neg hb1]
      rfl

/-! ## C15: clamping in Manual mode -/

/-- C15: in Manual mode with maxLinear >= 0, maxSteering >= 0 and 0 <= speedCoef <= 1,
whatever the stored joystick inputs, the tick publishes |linear.x| <= maxLinear *
speedCoef and |angular.z| <= maxSteering, and stores forwardSpeed in [-maxLinear,
maxLinear] and steeringAngle in [-maxSteering, maxSteering]. -/
theorem tick_manual_clamped (now : Int) (s : State)
    (hmode : s.teleoperated = true)
    (hL : 0 ≤ s.maxLinear) (hS : 0 ≤ s.maxSteering)
    (hC0 : 0 ≤ s.speedCoef) (_hC1 : s.speedCoef ≤ 1) :
    |(tick now s).velocity.linear.x| ≤ s.maxLinear * s.speedCoef ∧
    |(tick now s).velocity.angular.z| ≤ s.maxSteering ∧
    (-s.maxLinear ≤ (tick now s).state.forwardSpeed ∧
      (tick now s).state.forwardSpeed ≤ s.maxLinear) ∧
    (-s.maxSteering ≤ (tick now s).state.steeringAngle ∧
      (tick now s).state.steeringAngle ≤ s.maxSteering) := by
  obtain ⟨m1, m2, m3, m4⟩ := tick_manual_fields now s hmode
  have hv : (tick now s).velocity = (tick now s).state.twist := rfl
  rw [hv, m1, m2, m3, m4, abs_neg]
  refine ⟨?_, clamp_abs_le _ _ hS, abs_le.mp (clamp_abs_le _ _ hL),
    abs_le.mp (clamp_abs_le _ _ hS)⟩
  rw [abs_mul, abs_of_nonneg hC0]
  refine mul_le_mul_of_nonneg_right ?_ hC0
  split_ifs
  · rw [abs_zero]
    exact hL
  · exact clamp_abs_le _ _ hL

/-- Instance of C15: the state reached from the initial state on a sample with axis
values 1000 and -1000. -/
theorem tick_manual_clamped_witness :
    joyCallback (joyOf 1 1000 (-1000)) initialState = some bigStickState ∧
    |(tick 1 bigStickState).velocity.linear.x| ≤ bigStickState.maxLinear * bigStickState.speedCoef ∧
    |(tick 1 bigStickState).velocity.angular.z| ≤ bigStickState.maxSteering := by
  have h := tick_manual_clamped 1 bigStickState rfl (by norm_num [bigStickState, initialState])
    (by norm_num [bigStickState, initialState]) (by norm_num [bigStickState, initialState])
    (by norm_num [bigStickState, initialState])
  refine ⟨?_, h.1, h.2.1⟩
  rw [joyCallback_of_button (joyOf 1 1000 (-1000)) initialState 1 rfl, if_pos rfl,
    if_pos (by decide),
    manualShaping_of_reads (joyOf 1 1000 (-1000))
      { clearVelocities initialState with teleoperated := true } 1000 (-1000) 0 0
      rfl rfl rfl rfl]
  norm_num [bigStickState, initialState, boolToInt, clearVelocities, debias, wheelSteer,
    zeroTwist]

/-! ## C16: a sample that keeps Autonomous mode -/

/-- In Autonomous mode a sample whose override button reads 0 leaves the state as it is. -/
theorem joyCallback_autonomous_released (joy : Joy) (s : State)
    (hmode : s.teleoperated = false) (hb : readButton joy s.manualOverrideButton = some 0) :
    joyCallback joy s = some s := by
  have hm : ¬ (boolToInt s.teleoperated ≠ 0) := by simp [hmode, boolToInt]
  rw [joyCallback_of_button joy s 0 hb, if_neg (by decide), if_neg hm,
    teleoperated_update_self s false hmode]

/-- C16 at its failing input: in Autonomous mode with a pending command (linear.x = 5),
a sample whose override button holds 2 keeps the mode Autonomous but runs the reset of
lines 102-106, which zeroes the pending twist.linear.x. -/
theorem joyCallback_raw_button_resets :
    pendingState.teleoperated = false ∧ pendingState.twist.linear.x = 5 ∧
    readButton (joyOf 2 0 0) pendingState.manualOverrideButton = some 2 ∧
    ∃ s', joyCallback (joyOf 2 0 0) pendingState = some s' ∧
      s'.teleoperated = false ∧ s'.twist.linear.x = 0 ∧ s' ≠ pendingState := by
  refine ⟨rfl, rfl, rfl, { clearVelocities pendingState with teleoperated := false },
    ?_, rfl, rfl, ?_⟩
  · rw [joyCallback_of_button (joyOf 2 0 0) pendingState 2 rfl, if_neg (by decide),
      if_pos (by decide)]
  · intro h
    have h2 : (0 : ℚ) = 5 := congrArg (fun t : State => t.twist.linear.x) h
    norm_num at h2

/-! ## C17: the watchdog is never refreshed -/

/-- C17: from any start state with lastHealthReport = 0 and maxDeadTime = 0.5 s (the
initial state, under every parameter setting), after every sequence of joystick
events, autonomous commands and ticks lastHealthReport is still 0, and an autonomous
command processed in Autonomous mode at a clock reading of at least 0.5 s leaves
twist.linear.x, twist.linear.z and twist.angular.z equal to 0. -/
theorem watchdog_never_refreshed (s0 s : State) (evs : List Event) (now : Int) (cmd : Twist)
    (hreport : s0.lastHealthReport = 0) (hdead : s0.maxDeadTime = tenthsOfSecond 5)
    (hrun : run evs s0 = some s) (hmode : s.teleoperated = false)
    (hclock : tenthsOfSecond 5 ≤ now) :
    s.lastHealthReport = 0 ∧
    (cmdCallback now cmd s).twist.linear.x = 0 ∧
    (cmdCallback now cmd s).twist.linear.z = 0 ∧
    (cmdCallback now cmd s).twist.angular.z = 0 := by
  have hf := (run_frozen evs s0 s hrun).1
  simp only [frozenFields, Prod.mk.injEq] at hf
  have h1 : s.lastHealthReport = 0 := hf.1.trans hreport
  have h2 : s.maxDeadTime = tenthsOfSecond 5 := hf.2.1.trans hdead
  have hstale : ¬ (now - s.lastHealthReport < s.maxDeadTime) := by
    rw [h1, h2]
    omega
  refine ⟨h1, ?_⟩
  simp [cmdCallback, hmode, hstale, zeroCmd]

/-- Instance of C17: after a run in which the operator took and released control, a
command arriving 0.6 s after start is zeroed. -/
theorem watchdog_never_refreshed_witness :
    ∃ s, run [Event.onJoy (joyOf 1 1 1), Event.onTick 1, Event.onJoy (joyOf 0 0 0)]
        initialState = some s ∧ s.teleoperated = false ∧
      (cmdCallback (tenthsOfSecond 6) fastCmd s).twist.linear.x = 0 ∧
      (cmdCallback (tenthsOfSecond 6) fastCmd s).twist.angular.z = 0 := by
  refine ⟨_, rfl, rfl, ?_⟩
  have h := watchdog_never_refreshed initialState _ _ (tenthsOfSecond 6) fastCmd rfl rfl
    (rfl : run [Event.onJoy (joyOf 1 1 1), Event.onTick 1, Event.onJoy (joyOf 0 0 0)]
        initialState = some _) rfl (by decide)
  exact ⟨h.2.1, h.2.2.2⟩

/-! ## C18: leaving Manual mode keeps the last steering command -/

/-- A quiet event keeps Autonomous mode and the stored angular.z. -/
theorem step_quiet (e : Event) (s s' : State) (hq : quietEvent s.manualOverrideButton e)
    (hmode : s.teleoperated = false) (h : step e s = some s') :
    s'.teleoperated = false ∧ s'.twist.angular.z = s.twist.angular.z ∧
    s'.manualOverrideButton = s.manualOverrideButton := by
  cases e with
  | onJoy sample =>
    obtain ⟨b, hb, hb1⟩ := hq
    have h1 : joyCallback sample s = some s' := h
    rw [joyCallback_of_button sample s b hb, if_neg hb1] at h1
    cases Option.some.inj h1
    by_cases hm : boolToInt s.teleoperated ≠ b <;> simp [hm, clearVelocities]
  | onCmd now command => exact absurd hq id
  | onTick now =>
    cases Option.some.inj h
    have hc := (tick_frame now s).2.1
    simp only [joyConfig, Prod.mk.injEq] at hc
    exact ⟨(tick_frame now s).2.2.1.trans hmode, (tick_autonomous_fields now s hmode).2.2.1,
      hc.1⟩

/-- Quiet events keep Autonomous mode and the stored angular.z. -/
theorem run_quiet (evs : List Event) (s s' : State)
    (hq : ∀ e ∈ evs, quietEvent s.manualOverrideButton e)
    (hmode : s.teleoperated = false) (h : run evs s = some s') :
    s'.teleoperated = false ∧ s'.twist.angular.z = s.twist.angular.z := by
  induction evs generalizing s with
  | nil =>
    cases Option.some.inj h
    exact ⟨hmode, rfl⟩
  | cons e es ih =>
    cases hs : step e s with
    | none => simp [run, hs] at h
    | some s1 =>
      have h1 : run es s1 = some s' := by simpa [run, hs] using h
      obtain ⟨a1, a2, a3⟩ := step_quiet e s s1 (hq e (List.mem_cons_self e es)) hmode hs
      obtain ⟨b1, b2⟩ := ih s1
        (fun e' he' => by rw [a3]; exact hq e' (List.mem_cons_of_mem e he')) a1 h1
      exact ⟨b1, b2.trans a2⟩

/-- C18: in Manual mode a sample whose override button is not 1 switches to Autonomous
mode and leaves twist.angular.z and twist.linear.z as they were; from then on, as long
as no autonomous command is processed and the mode stays Autonomous (ticks, and samples
whose override button is not 1), every tick publishes that same angular.z. -/
theorem manual_steering_survives_release (joy : Joy) (s : State) (b : Int)
    (hmode : s.teleoperated = true)
    (hb : readButton joy s.manualOverrideButton = some b) (hrel : b ≠ 1) :
    ∃ s1, joyCallback joy s = some s1 ∧ s1.teleoperated = false ∧
      s1.twist.angular.z = s.twist.angular.z ∧ s1.twist.linear.z = s.twist.linear.z ∧
      ∀ (evs : List Event) (s2 : State),
        (∀ e ∈ evs, quietEvent s.manualOverrideButton e) → run evs s1 = some s2 →
        ∀ now : Int, (tick now s2).velocity.angular.z = s.twist.angular.z := by
  have hm : boolToInt s.teleoperated ≠ b := by
    rw [hmode]
    exact fun e => hrel e.symm
  refine ⟨{ clearVelocities s with teleoperated := false }, ?_, rfl, rfl, rfl, ?_⟩
  · rw [joyCallback_of_button joy s b hb, if_neg hrel, if_pos hm]
  · intro evs s2 hq hrun now
    obtain ⟨h1, h2⟩ :=
      run_quiet evs { clearVelocities s with teleoperated := false } s2 hq rfl hrun
    have hv : (tick now s2).velocity = (tick now s2).state.twist := rfl
    rw [hv, (tick_autonomous_fields now s2 h1).2.2.1, h2]
    rfl

/-- Instance of C18: the operator steers (angular.z = 1.57 after the tick), releases
the override, and two ticks and another released sample later the tick still
publishes 1.57. -/
theorem manual_steering_survives_release_witness :
    (tick 1 manualState).state.twist.angular.z = 1.57 ∧
    ∃ s1 s2, joyCallback (joyOf 0 0 0) (tick 1 manualState).state = some s1 ∧
      run [Event.onTick 2, Event.onJoy (joyOf 0 0 0), Event.onTick 3] s1 = some s2 ∧
      (tick 4 s2).velocity.angular.z = 1.57 := by
  have e : (tick 1 manualState).state.twist.angular.z = 1.57 := by
    norm_num [tick, manualState, initialState, manualIntegrate, emergencyOverride, scaleLinear]
  obtain ⟨s1, h1, _, _, _, h5⟩ :=
    manual_steering_survives_release (joyOf 0 0 0) (tick 1 manualState).state 0 rfl rfl
      (by decide)
  have hc : s1.teleoperated = false ∧ s1.manualOverrideButton = 0 := by
    have h0 : joyCallback (joyOf 0 0 0) (tick 1 manualState).state
        = some { clearVelocities (tick 1 manualState).state with teleoperated := false } := by
      rw [joyCallback_of_button (joyOf 0 0 0) (tick 1 manualState).state 0 rfl,
        if_neg (by decide), if_pos (by decide)]
    rw [h0] at h1
    cases Option.some.inj h1
    exact ⟨rfl, rfl⟩
  have hrun : run [Event.onTick 2, Event.onJoy (joyOf 0 0 0), Event.onTick 3] s1
      = some (tick 3 (tick 2 s1).state).state := by
    have hj : joyCallback (joyOf 0 0 0) (tick 2 s1).state = some (tick 2 s1).state := by
      have hc2 := (tick_frame 2 s1).2.1
      simp only [joyConfig, Prod.mk.injEq] at hc2
      refine joyCallback_autonomous_released _ _ ((tick_frame 2 s1).2.2.1.trans hc.1) ?_
      rw [hc2.1, hc.2]
      rfl
    simp [run, step, hj]
  refine ⟨e, s1, _, h1, hrun, ?_⟩
  rw [h5 _ _ ?_ hrun 4, e]
  intro ev hev
  simp only [List.mem_cons, List.mem_singleton, List.not_mem_nil, or_false] at hev
  rcases hev with rfl | rfl | rfl
  · exact trivial
  · exact ⟨0, rfl, by decide⟩
  · exact trivial

/-! ## C19: consecutive ticks -/

/-- Consecutive loop iterations keep the mode, the frozen and configuration globals
and the stored joystick inputs. -/
theorem ticks_frame (clocks : List Int) (s : State) :
    frozenFields (ticks clocks s) = frozenFields s ∧
    joyConfig (ticks clocks s) = joyConfig s ∧
    (ticks clocks s).teleoperated = s.teleoperated ∧
    (ticks clocks s).forwardAcceleration = s.forwardAcceleration := by
  induction clocks generalizing s with
  | nil => exact ⟨rfl, rfl, rfl, rfl⟩
  | cons now rest ih =>
    obtain ⟨a1, a2, a3, a4⟩ := ih (tick now s).state
    obtain ⟨b1, b2, b3, b4, -⟩ := tick_frame now s
    exact ⟨a1.trans b1, a2.trans b2, a3.trans b3, a4.trans b4⟩

/-- In Autonomous mode with the brake clear every loop iteration multiplies the stored
twist.linear.x by speedCoef. -/
theorem ticks_autonomous_linear (clocks : List Int) (s : State)
    (hmode : s.teleoperated = false) (hbrake : s.emergencyBreak = false) :
    (ticks clocks s).twist.linear.x = s.twist.linear.x * s.speedCoef ^ clocks.length := by
  induction clocks generalizing s with
  | nil => simp [ticks]
  | cons now rest ih =>
    obtain ⟨b1, -, b3, -, -⟩ := tick_frame now s
    simp only [frozenFields, Prod.mk.injEq] at b1
    have hx := (tick_autonomous_fields now s hmode).2.2.2
    rw [hbrake] at hx
    simp only [Bool.false_eq_true, if_false] at hx
    have h := ih (tick now s).state (b3.trans hmode) (b1.2.2.1.trans hbrake)
    rw [hx, b1.2.2.2.1] at h
    simp only [ticks, List.length_cons]
    rw [h, pow_succ]
    ring

/-- C19: with the emergency-brake flag clear, after n >= 1 consecutive ticks with no
intervening event the tick publishes, in Autonomous mode, linear.x = x0 * speedCoef^n,
where x0 is twist.linear.x before the first tick, and, in Manual mode, linear.x =
clamp(forwardAcceleration, -maxLinear, maxLinear) * speedCoef every time.  The n ticks
are the ticks at the clock readings `clocks` followed by the tick at `now`. -/
theorem ticks_linear_output (clocks : List Int) (now : Int) (s : State)
    (hbrake : s.emergencyBreak = false) :
    (s.teleoperated = false →
      (tick now (ticks clocks s)).velocity.linear.x
        = s.twist.linear.x * s.speedCoef ^ (clocks.length + 1)) ∧
    (s.teleoperated = true →
      (tick now (ticks clocks s)).velocity.linear.x
        = clampSpec s.forwardAcceleration (-s.maxLinear) s.maxLinear * s.speedCoef) := by
  obtain ⟨f1, f2, f3, f4⟩ := ticks_frame clocks s
  simp only [frozenFields, joyConfig, Prod.mk.injEq] at f1 f2
  have hv : (tick now (ticks clocks s)).velocity = (tick now (ticks clocks s)).state.twist := rfl
  have hb : (ticks clocks s).emergencyBreak = false := f1.2.2.1.trans hbrake
  constructor
  · intro hmode
    rw [hv, (tick_autonomous_fields now _ (f3.trans hmode)).2.2.2, hb,
      ticks_autonomous_linear clocks s hmode hbrake, f1.2.2.2.1, pow_succ]
    simp only [Bool.false_eq_true, if_false]
    ring
  · intro hmode
    rw [hv, (tick_manual_fields now _ (f3.trans hmode)).2.2.2, hb, f4, f1.2.2.2.1,
      f2.2.2.2.2.2.2.2.2]
    simp only [Bool.false_eq_true, if_false, clampSpec]

/-- Instances of C19: three ticks with speedCoef 1/2 publish 5 * (1/2)^3 in Autonomous
mode and clamp(3, -0.1, 0.1) * 1/2 in Manual mode. -/
theorem ticks_linear_output_witness :
    (tick 3 (ticks [1, 2] { pendingState with speedCoef := 1 / 2 })).velocity.linear.x
      = 5 * (1 / 2) ^ 3 ∧
    (tick 3 (ticks [1, 2] { manualState with speedCoef := 1 / 2 })).velocity.linear.x
      = 0.1 * (1 / 2) := by
  have h1 := (ticks_linear_output [1, 2] 3 { pendingState with speedCoef := 1 / 2 } rfl).1 rfl
  have h2 := (ticks_linear_output [1, 2] 3 { manualState with speedCoef := 1 / 2 } rfl).2 rfl
  refine ⟨h1, ?_⟩
  rw [h2]
  norm_num [clampSpec, manualState, initialState]

/-! ## C20: globals that nothing assigns -/

/-- The scaling of line 239 with speedCoef = 1 changes nothing. -/
theorem scaleLinear_one (s : State) (h : s.speedCoef = 1) : scaleLinear s = s := by
  rcases s with ⟨_, _, _, _, _, _, _, _, _, _, _, ⟨⟨_, _, _⟩, _⟩, _, _, _, _, _, _, _, _, _, _, _⟩
  simp only at h
  subst h
  simp [scaleLinear]

/-- C20: from any start state with emergencyBreak = false, speedCoef = 1,
actuatorLifting = true, actuatorAllowLifting = true and actuatorMovementStart = 0 (the
initial state, under every parameter setting), every state reached by joystick events,
autonomous commands and ticks has the same five values; hence in a tick the emergency
override and the scaling change nothing, every emitted actuator command is the engage
command, and one is emitted only in Manual mode at a clock reading below
actuatorPublishDuration. -/
theorem reachable_frozen_globals (s0 s : State) (evs : List Event)
    (hbrake : s0.emergencyBreak = false) (hcoef : s0.speedCoef = 1)
    (hlift : s0.actuatorLifting = true) (hallow : s0.actuatorAllowLifting = true)
    (hstart : s0.actuatorMovementStart = 0)
    (hrun : run evs s0 = some s) :
    (s.emergencyBreak = false ∧ s.speedCoef = 1 ∧ s.actuatorLifting = true ∧
      s.actuatorAllowLifting = true ∧ s.actuatorMovementStart = 0) ∧
    ∀ now : Int,
      (tick now s).state = (if s.teleoperated then manualIntegrate s else s) ∧
      (tick now s).velocity = (if s.teleoperated then manualIntegrate s else s).twist ∧
      (∀ c ∈ (tick now s).gripper, c = true) ∧
      ((tick now s).gripper ≠ [] →
        s.teleoperated = true ∧ now < s.actuatorPublishDuration) := by
  have hf := (run_frozen evs s0 s hrun).1
  simp only [frozenFields, Prod.mk.injEq] at hf
  obtain ⟨-, -, f3, f4, f5, f6, f7, -⟩ := hf
  have g3 := f3.trans hbrake
  have g4 := f4.trans hcoef
  have g5 := f5.trans hlift
  have g6 := f6.trans hallow
  have g7 := f7.trans hstart
  refine ⟨⟨g3, g4, g5, g6, g7⟩, fun now => ?_⟩
  have hstate : (tick now s).state = (if s.teleoperated then manualIntegrate s else s) := by
    cases ht : s.teleoperated
    · simp only [tick, ht, emergencyOverride, g3, Bool.false_eq_true, if_false]
      exact scaleLinear_one s g4
    · have e : (manualIntegrate s).emergencyBreak = false := g3
      have e2 : (manualIntegrate s).speedCoef = 1 := g4
      simp only [tick, ht, emergencyOverride, e, Bool.false_eq_true, if_false, if_true]
      exact scaleLinear_one _ e2
  have hvel : (tick now s).velocity = (tick now s).state.twist := rfl
  refine ⟨hstate, by rw [hvel, hstate], ?_, ?_⟩
  · cases ht : s.teleoperated <;>
      by_cases hw : now - s.actuatorMovementStart < s.actuatorPublishDuration <;>
      simp [tick, actuatorCommands, manualIntegrate, ht, g5, g6, hw]
  · cases ht : s.teleoperated <;>
      by_cases hw : now < s.actuatorPublishDuration <;>
      simp [tick, actuatorCommands, manualIntegrate, ht, g5, g6, g7, hw]

/-- Instance of C20: after the sample run the five globals hold their initial values. -/
theorem reachable_frozen_globals_witness :
    ∃ s, run sampleRun initialState = some s ∧
      s.emergencyBreak = false ∧ s.speedCoef = 1 ∧ s.actuatorLifting = true ∧
      s.actuatorAllowLifting = true ∧ s.actuatorMovementStart = 0 :=
  ⟨_, rfl, (reachable_frozen_globals initialState _ sampleRun rfl rfl rfl rfl rfl rfl).1⟩

end TarosTeleop
